import Mathlib

/-!
Shallow embedding of the benchmark execution and measurement engine of the
crawlee-playground repository: the reporter (`averageResults`,
`generateComparison`, `generateReport`) and the benchmark runner
(`runBenchmark`, `runBenchmarks`).

Modelling conventions:
* JavaScript timestamps (`Date.now()`) and integer counters are `Int`.
* Memory values in MB are exact rationals `ℚ`; the optional TypeScript field
  `memoryUsed?: number` becomes `Option ℚ`, and the JavaScript `x || 0`
  coercion of a possibly-undefined number becomes `Option.getD · 0`.
* `Math.round` is `jsRound : ℚ → Int`, i.e. `⌊q + 1/2⌋` (round half up,
  matching JavaScript's round-half-towards-positive-infinity).
* A function that can `throw` is embedded as `Except String _`, carrying the
  thrown error's message.
* The effectful parts of one benchmark iteration (wall-clock reads, the
  100 ms memory sampler, and the awaited `crawl` call) are abstracted into an
  `IterEnv` record: start/end timestamps, the start-of-iteration memory
  baseline, the list of memory samples observed by the sampler, and the
  crawl outcome (success with extracted items, or a thrown error message).
-/

/-- JavaScript `Math.round`: round half towards positive infinity. -/
def jsRound (q : ℚ) : Int := ⌊q + 1 / 2⌋

/-- The two crawler providers (`crawlerType` in benchmark.types.ts). -/
inductive CrawlerType where
  | playwright
  | cheerio
deriving DecidableEq, Inhabited

/-- Structure `BenchmarkConfig` from benchmark.types.ts (all numeric fields optional). -/
structure BenchmarkConfig where
  url : String
  maxPages : Option Int
  maxDepth : Option Int
  iterations : Option Nat
  timeout : Option Int
deriving Inhabited

/-- Metadata of one extracted page record (`CrawlResult.metadata`). -/
structure CrawlMetadata where
  statusCode : Int
  timestamp : String
deriving Inhabited

/-- Structure `CrawlResult` from benchmark.types.ts: one extracted page record. -/
structure CrawlResult where
  url : String
  title : String
  htmlContent : String
  metadata : CrawlMetadata
deriving Inhabited

/-- Structure `BenchmarkMetrics` from benchmark.types.ts. -/
@[ext]
structure BenchmarkMetrics where
  startTime : Int
  endTime : Int
  duration : Int
  pagesProcessed : Int
  pagesFailed : Int
  memoryUsed : Option ℚ
  errors : List String
deriving Inhabited

/-- Structure `BenchmarkResult` from benchmark.types.ts: one iteration's full record. -/
@[ext]
structure BenchmarkResult where
  crawlerType : CrawlerType
  config : BenchmarkConfig
  metrics : BenchmarkMetrics
  results : List CrawlResult
  iteration : Nat
deriving Inhabited

/-- Structure `ComparisonResult` from benchmark.types.ts. -/
structure ComparisonResult where
  playwright : BenchmarkResult
  cheerio : BenchmarkResult
  speedup : ℚ
  memoryDifference : ℚ
  pagesDifference : Int
deriving Inhabited

/-- Structure `BenchmarkReport` from benchmark.types.ts (comparison is optional). -/
structure BenchmarkReport where
  timestamp : String
  config : BenchmarkConfig
  results : List BenchmarkResult
  comparison : Option ComparisonResult
deriving Inhabited

/-- Accumulator shape of the `reduce` inside `averageResults` (reporter.ts). -/
structure SumAcc where
  duration : Int
  pagesProcessed : Int
  pagesFailed : Int
  memoryUsed : ℚ
  errors : List String
deriving Inhabited

/-- One step of the `reduce` inside `averageResults` (reporter.ts 198-213). -/
def sumStep (acc : SumAcc) (result : BenchmarkResult) : SumAcc :=
  { duration := acc.duration + result.metrics.duration
    pagesProcessed := acc.pagesProcessed + result.metrics.pagesProcessed
    pagesFailed := acc.pagesFailed + result.metrics.pagesFailed
    memoryUsed := acc.memoryUsed + (result.metrics.memoryUsed.getD 0)
    errors := acc.errors ++ result.metrics.errors }

/-- Function `averageResults` from reporter.ts (lines 193-224): throws on an empty
input, otherwise averages duration/pages (rounded to the nearest integer),
memory (rounded to 2 decimal places), concatenates error lists, and takes the
first result's `startTime` and the last result's `endTime`. -/
def averageResults (results : List BenchmarkResult) :
    Except String BenchmarkMetrics :=
  if results.length = 0 then
    .error "Cannot average empty results"
  else
    let sum := results.foldl sumStep ⟨0, 0, 0, 0, []⟩
    .ok
      { startTime := results.headI.metrics.startTime
        endTime := results.getLastI.metrics.endTime
        duration := jsRound ((sum.duration : ℚ) / (results.length : ℚ))
        pagesProcessed := jsRound ((sum.pagesProcessed : ℚ) / (results.length : ℚ))
        pagesFailed := jsRound ((sum.pagesFailed : ℚ) / (results.length : ℚ))
        memoryUsed := some
          ((jsRound ((sum.memoryUsed / (results.length : ℚ)) * 100) : ℚ) / 100)
        errors := sum.errors }

/-- Function `generateComparison` from reporter.ts (lines 229-257): averages each
provider's results, rebuilds one `BenchmarkResult` per provider from the
first element of that provider's list with the averaged metrics substituted,
and derives speedup, memory difference and pages difference. -/
def generateComparison (playwrightResults cheerioResults : List BenchmarkResult) :
    Except String ComparisonResult := do
  let playwrightAvg ← averageResults playwrightResults
  let cheerioAvg ← averageResults cheerioResults
  let playwrightResult : BenchmarkResult :=
    { playwrightResults.headI with metrics := playwrightAvg }
  let cheerioResult : BenchmarkResult :=
    { cheerioResults.headI with metrics := cheerioAvg }
  let speedup : ℚ := (playwrightAvg.duration : ℚ) / (cheerioAvg.duration : ℚ)
  let memoryDifference : ℚ :=
    cheerioAvg.memoryUsed.getD 0 - playwrightAvg.memoryUsed.getD 0
  let pagesDifference : Int :=
    cheerioAvg.pagesProcessed - playwrightAvg.pagesProcessed
  .ok
    { playwright := playwrightResult
      cheerio := cheerioResult
      speedup := speedup
      memoryDifference := memoryDifference
      pagesDifference := pagesDifference }

/-- Function `generateReport` from reporter.ts (lines 262-281): filters the result
list per provider, attaches a comparison exactly when both filtered lists are
non-empty, and stamps the generation timestamp (passed here as an argument
in place of `new Date().toISOString()`). -/
def generateReport (results : List BenchmarkResult) (config : BenchmarkConfig)
    (timestamp : String) : Except String BenchmarkReport :=
  let playwrightResults :=
    results.filter (fun r => r.crawlerType == CrawlerType.playwright)
  let cheerioResults :=
    results.filter (fun r => r.crawlerType == CrawlerType.cheerio)
  if playwrightResults.length > 0 ∧ cheerioResults.length > 0 then
    match generateComparison playwrightResults cheerioResults with
    | .ok comparison =>
        .ok { timestamp := timestamp, config := config, results := results
              comparison := some comparison }
    | .error e => .error e
  else
    .ok { timestamp := timestamp, config := config, results := results
          comparison := none }

/-- Success value of a provider's `crawl` call: the extracted page records
(the crawl metadata block is not consumed by the runner). -/
structure ExtractedData where
  items : List CrawlResult
deriving Inhabited

/-- Effect environment of one benchmark iteration (runner.ts 361-379): the
start/end wall-clock reads, the start-of-iteration memory baseline, the list
of memory samples the 100 ms sampler observed (including the final forced
sample), and the awaited crawl outcome. -/
structure IterEnv where
  startTime : Int
  endTime : Int
  startMemory : ℚ
  samples : List ℚ
  outcome : Except String ExtractedData
deriving Inhabited

/-- Function `trackPeakMemory` from runner.ts (lines 341-346): update the running
peak when the current sample exceeds it. -/
def trackPeak (peak current : ℚ) : ℚ :=
  if peak < current then current else peak

/-- The peak memory seen during an iteration: `peakMemory` is reset to the
start-of-iteration baseline (runner.ts line 363) and then updated by every
sample. -/
def peakMemory (env : IterEnv) : ℚ :=
  env.samples.foldl trackPeak env.startMemory

/-- Function `runBenchmark` from runner.ts (lines 351-445): one timed, memory-profiled
provider invocation. On success it records the item count and the page
records; on failure it absorbs the thrown error into the metrics
(`pagesFailed = 1`, `errors = [message]`, `results = []`). It is total: no
error escapes it. -/
def runBenchmark (crawlerType : CrawlerType) (config : BenchmarkConfig)
    (iteration : Nat) (env : IterEnv) : BenchmarkResult :=
  let startTime := env.startTime
  let startMemory := env.startMemory
  match env.outcome with
  | .ok result =>
      let endTime := env.endTime
      let duration := endTime - startTime
      let memoryDelta := max 0 (peakMemory env - startMemory)
      { crawlerType := crawlerType
        config := config
        metrics :=
          { startTime := startTime
            endTime := endTime
            duration := duration
            pagesProcessed := result.items.length
            pagesFailed := 0
            memoryUsed := some memoryDelta
            errors := [] }
        results := result.items.map (fun item =>
          { url := item.url, title := item.title
            htmlContent := item.htmlContent, metadata := item.metadata })
        iteration := iteration }
  | .error e =>
      let endTime := env.endTime
      let errorMessage := e
      let memoryDelta := max 0 (peakMemory env - startMemory)
      { crawlerType := crawlerType
        config := config
        metrics :=
          { startTime := startTime
            endTime := endTime
            duration := endTime - startTime
            pagesProcessed := 0
            pagesFailed := 1
            memoryUsed := some memoryDelta
            errors := [errorMessage] }
        results := []
        iteration := iteration }

/-- The `-c, --crawler` CLI selection: `both`, or a single provider. -/
inductive CrawlerChoice where
  | both
  | playwright
  | cheerio
deriving Inhabited

/-- The provider expansion of runner.ts (lines 470-471): `both` expands to
playwright before cheerio. -/
def crawlersToTest : CrawlerChoice → List CrawlerType
  | .both => [.playwright, .cheerio]
  | .playwright => [.playwright]
  | .cheerio => [.cheerio]

/-- The orchestrator run loop of `runBenchmarks` (runner.ts 469-478): outer
loop over the selected providers, inner loop over iteration indices
`0..iterations-1`, collecting results in order. The per-iteration effects are
supplied by `env` (one `IterEnv` per provider and iteration index). -/
def runBenchmarks (choice : CrawlerChoice) (config : BenchmarkConfig)
    (env : CrawlerType → Nat → IterEnv) : List BenchmarkResult :=
  (crawlersToTest choice).flatMap (fun crawlerType =>
    (List.range (config.iterations.getD 0)).map (fun i =>
      runBenchmark crawlerType config i (env crawlerType i)))

/-- Closed form of the averaged metrics record produced by `averageResults`
on a non-empty input, with the `reduce` expressed as list sums/concatenation. -/
def meanMetrics (l : List BenchmarkResult) : BenchmarkMetrics :=
  { startTime := l.headI.metrics.startTime
    endTime := l.getLastI.metrics.endTime
    duration :=
      jsRound (((l.map fun r => r.metrics.duration).sum : ℚ) / (l.length : ℚ))
    pagesProcessed :=
      jsRound (((l.map fun r => r.metrics.pagesProcessed).sum : ℚ) / (l.length : ℚ))
    pagesFailed :=
      jsRound (((l.map fun r => r.metrics.pagesFailed).sum : ℚ) / (l.length : ℚ))
    memoryUsed := some
      ((jsRound (((l.map fun r => r.metrics.memoryUsed.getD 0).sum / (l.length : ℚ)) * 100) : ℚ) / 100)
    errors := (l.map fun r => r.metrics.errors).flatten }

/-- Sample configuration used by concrete witness instances (the §8 scenario
configuration of the spec). -/
def cfg0 : BenchmarkConfig :=
  { url := "https://example.com", maxPages := some 5, maxDepth := some 1
    iterations := some 1, timeout := some 30000 }

/-- The scenario configuration with 2 iterations. -/
def cfg2 : BenchmarkConfig := { cfg0 with iterations := some 2 }

/-- Builder for concrete witness metrics (memory always present). -/
def mkMetrics (st et d pp pf : Int) (mu : ℚ) (errs : List String) :
    BenchmarkMetrics :=
  { startTime := st, endTime := et, duration := d, pagesProcessed := pp
    pagesFailed := pf, memoryUsed := some mu, errors := errs }

/-- Builder for concrete witness results. -/
def mkRes (t : CrawlerType) (m : BenchmarkMetrics) (pages : List CrawlResult) :
    BenchmarkResult :=
  { crawlerType := t, config := cfg0, metrics := m, results := pages
    iteration := 0 }

/-- A sample extracted page record. -/
def page1 : CrawlResult :=
  { url := "https://example.com/", title := "Example"
    htmlContent := "<html></html>"
    metadata := { statusCode := 200, timestamp := "t0" } }

/-- A second sample extracted page record. -/
def page2 : CrawlResult :=
  { url := "https://example.com/about", title := "About"
    htmlContent := "<html>about</html>"
    metadata := { statusCode := 200, timestamp := "t1" } }

/-- A failing iteration environment: the provider rejects. -/
def envFail : IterEnv :=
  { startTime := 0, endTime := 5, startMemory := 10, samples := [12, 8]
    outcome := .error "connection refused" }

/-- A successful iteration environment: the provider returns one page. -/
def envOk : IterEnv :=
  { startTime := 0, endTime := 7, startMemory := 10, samples := [11]
    outcome := .ok { items := [page1] } }

/-- Iteration result with duration 100 ms. -/
def res100 : BenchmarkResult :=
  mkRes .playwright (mkMetrics 0 100 100 5 0 20 []) [page1]

/-- Iteration result with duration 200 ms. -/
def res200 : BenchmarkResult :=
  mkRes .playwright (mkMetrics 100 300 200 5 0 20 []) [page1]

/-- Iteration result with duration 300 ms. -/
def res300 : BenchmarkResult :=
  mkRes .playwright (mkMetrics 300 600 300 5 0 20 []) [page1]

/-- The §8 scenario playwright result: 5 items in 3000 ms, 40 MB delta. -/
def pwScenario : BenchmarkResult :=
  mkRes .playwright (mkMetrics 0 3000 3000 5 0 40 []) [page1]

/-- The §8 scenario cheerio result: 5 items in 1200 ms, 10 MB delta. -/
def chScenario : BenchmarkResult :=
  mkRes .cheerio (mkMetrics 0 1200 1200 5 0 10 []) [page1]

/-- Singleton whose memory delta (0.005 MB) is not a 2-decimal multiple. -/
def badR : BenchmarkResult :=
  mkRes .playwright (mkMetrics 0 50 50 3 0 (1 / 200) []) []

/-- Singleton with a 2-decimal memory delta (12.34 MB). -/
def idR : BenchmarkResult :=
  mkRes .playwright (mkMetrics 0 50 50 3 0 (1234 / 100) ["e1"]) [page1]

/-- Failed playwright iteration carrying errors a, b. -/
def eR1 : BenchmarkResult :=
  mkRes .playwright (mkMetrics 0 10 10 0 1 0 ["a", "b"]) []

/-- Failed playwright iteration carrying errors b, c. -/
def eR2 : BenchmarkResult :=
  mkRes .playwright (mkMetrics 10 20 10 0 1 0 ["b", "c"]) []

/-- First playwright iteration, one page record. -/
def pA0 : BenchmarkResult :=
  mkRes .playwright (mkMetrics 0 100 100 1 0 5 []) [page1]

/-- Second playwright iteration, a different page record. -/
def pA1 : BenchmarkResult :=
  { mkRes .playwright (mkMetrics 100 220 120 1 0 6 []) [page2] with iteration := 1 }

/-- A cheerio iteration. -/
def cB0 : BenchmarkResult :=
  mkRes .cheerio (mkMetrics 220 260 40 1 0 2 []) [page2]

lemma jsRound_intCast (n : Int) : jsRound (n : ℚ) = n := by
  unfold jsRound
  rw [add_comm, Int.floor_add_int]
  norm_num

lemma foldl_sumStep_duration (l : List BenchmarkResult) (z : SumAcc) :
    (l.foldl sumStep z).duration = z.duration + (l.map fun r => r.metrics.duration).sum := by
  induction l generalizing z with
  | nil => simp
  | cons a t ih =>
      simp only [List.foldl_cons, List.map_cons, List.sum_cons, ih, sumStep]
      ring

lemma foldl_sumStep_pagesProcessed (l : List BenchmarkResult) (z : SumAcc) :
    (l.foldl sumStep z).pagesProcessed
      = z.pagesProcessed + (l.map fun r => r.metrics.pagesProcessed).sum := by
  induction l generalizing z with
  | nil => simp
  | cons a t ih =>
      simp only [List.foldl_cons, List.map_cons, List.sum_cons, ih, sumStep]
      ring

lemma foldl_sumStep_pagesFailed (l : List BenchmarkResult) (z : SumAcc) :
    (l.foldl sumStep z).pagesFailed
      = z.pagesFailed + (l.map fun r => r.metrics.pagesFailed).sum := by
  induction l generalizing z with
  | nil => simp
  | cons a t ih =>
      simp only [List.foldl_cons, List.map_cons, List.sum_cons, ih, sumStep]
      ring

lemma foldl_sumStep_memoryUsed (l : List BenchmarkResult) (z : SumAcc) :
    (l.foldl sumStep z).memoryUsed
      = z.memoryUsed + (l.map fun r => r.metrics.memoryUsed.getD 0).sum := by
  induction l generalizing z with
  | nil => simp
  | cons a t ih =>
      simp only [List.foldl_cons, List.map_cons, List.sum_cons, ih, sumStep]
      ring

lemma foldl_sumStep_errors (l : List BenchmarkResult) (z : SumAcc) :
    (l.foldl sumStep z).errors = z.errors ++ (l.map fun r => r.metrics.errors).flatten := by
  induction l generalizing z with
  | nil => simp
  | cons a t ih =>
      simp only [List.foldl_cons, List.map_cons, List.flatten, ih, sumStep]
      simp [List.append_assoc]

lemma averageResults_eq_ok (l : List BenchmarkResult) (h : l ≠ []) :
    averageResults l = .ok (meanMetrics l) := by
  unfold averageResults
  rw [if_neg (by simpa using h)]
  simp only [foldl_sumStep_duration, foldl_sumStep_pagesProcessed,
    foldl_sumStep_pagesFailed, foldl_sumStep_memoryUsed, foldl_sumStep_errors]
  simp [meanMetrics, Function.comp_def]

lemma getLastI_singleton {α : Type} [Inhabited α] (a : α) : [a].getLastI = a := rfl

lemma meanMetrics_singleton (r : BenchmarkResult) (k : Int)
    (h : r.metrics.memoryUsed = some ((k : ℚ) / 100)) :
    meanMetrics [r] = r.metrics := by
  unfold meanMetrics
  ext1
  · simp
  · simp [getLastI_singleton]
  · simp [jsRound_intCast]
  · simp [jsRound_intCast]
  · simp [jsRound_intCast]
  · simp only [List.map_cons, List.map_nil, List.sum_cons, List.sum_nil, add_zero,
      List.length_cons, List.length_nil, zero_add, Nat.cast_one, div_one, h, Option.getD_some]
    rw [div_mul_cancel₀ _ (by norm_num : (100 : ℚ) ≠ 0), jsRound_intCast]
  · simp

lemma generateComparison_eq (p c : List BenchmarkResult) (hp : p ≠ []) (hc : c ≠ []) :
    generateComparison p c = .ok
      { playwright := { p.headI with metrics := meanMetrics p }
        cheerio := { c.headI with metrics := meanMetrics c }
        speedup := ((meanMetrics p).duration : ℚ) / ((meanMetrics c).duration : ℚ)
        memoryDifference :=
          (meanMetrics c).memoryUsed.getD 0 - (meanMetrics p).memoryUsed.getD 0
        pagesDifference :=
          (meanMetrics c).pagesProcessed - (meanMetrics p).pagesProcessed } := by
  unfold generateComparison
  rw [averageResults_eq_ok p hp, averageResults_eq_ok c hc]
  rfl

lemma filter_crawlerType_pos (results : List BenchmarkResult) (t : CrawlerType) :
    0 < (results.filter fun r => r.crawlerType == t).length
      ↔ ∃ r ∈ results, r.crawlerType = t := by
  rw [List.length_pos_iff_exists_mem]
  simp [List.mem_filter]

lemma runBenchmark_crawlerType_eq (ct : CrawlerType) (config : BenchmarkConfig)
    (i : Nat) (env : IterEnv) : (runBenchmark ct config i env).crawlerType = ct := by
  unfold runBenchmark
  cases env.outcome <;> rfl

lemma runBenchmark_iteration_eq (ct : CrawlerType) (config : BenchmarkConfig)
    (i : Nat) (env : IterEnv) : (runBenchmark ct config i env).iteration = i := by
  unfold runBenchmark
  cases env.outcome <;> rfl

/-- C1: when the provider invocation rejects with a message, `runBenchmark`
returns (rather than propagates — it is a total function into
`BenchmarkResult`) a result whose metrics record the failure point:
`pagesFailed = 1`, `pagesProcessed = 0`, `errors = [message]`,
`results = []`, and `duration = endTime - startTime` up to the failure. -/
theorem C1_runBenchmark_failure_shape (ct : CrawlerType)
    (config : BenchmarkConfig) (i : Nat) (env : IterEnv) (msg : String)
    (h : env.outcome = .error msg) :
    runBenchmark ct config i env =
      { crawlerType := ct
        config := config
        metrics :=
          { startTime := env.startTime
            endTime := env.endTime
            duration := env.endTime - env.startTime
            pagesProcessed := 0
            pagesFailed := 1
            memoryUsed := some (max 0 (peakMemory env - env.startMemory))
            errors := [msg] }
        results := []
        iteration := i } := by
  unfold runBenchmark
  rw [h]

/-- Witness for C1: a concrete rejecting environment. -/
theorem C1_runBenchmark_failure_shape_witness :
    runBenchmark CrawlerType.playwright cfg0 0 envFail =
      { crawlerType := CrawlerType.playwright
        config := cfg0
        metrics :=
          { startTime := 0
            endTime := 5
            duration := 5 - 0
            pagesProcessed := 0
            pagesFailed := 1
            memoryUsed := some (max 0 (peakMemory envFail - 10))
            errors := ["connection refused"] }
        results := []
        iteration := 0 } :=
  C1_runBenchmark_failure_shape CrawlerType.playwright cfg0 0 envFail
    "connection refused" rfl

/-- C2: on a non-empty input, `averageResults` returns the arithmetic means
of duration, pagesProcessed and pagesFailed each rounded to the nearest
integer independently, the mean memory rounded to 2 decimal places, the
first input result's startTime and the last input result's endTime in list
order. -/
theorem C2_averageResults_mean_fields (l : List BenchmarkResult) (h : l ≠ []) :
    ∃ m, averageResults l = .ok m ∧
      m.duration =
        jsRound (((l.map fun r => r.metrics.duration).sum : ℚ) / (l.length : ℚ)) ∧
      m.pagesProcessed =
        jsRound (((l.map fun r => r.metrics.pagesProcessed).sum : ℚ) / (l.length : ℚ)) ∧
      m.pagesFailed =
        jsRound (((l.map fun r => r.metrics.pagesFailed).sum : ℚ) / (l.length : ℚ)) ∧
      m.memoryUsed = some
        ((jsRound (((l.map fun r => r.metrics.memoryUsed.getD 0).sum / (l.length : ℚ)) * 100) : ℚ) / 100) ∧
      m.startTime = l.headI.metrics.startTime ∧
      m.endTime = l.getLastI.metrics.endTime :=
  ⟨meanMetrics l, averageResults_eq_ok l h, rfl, rfl, rfl, rfl, rfl, rfl⟩

/-- Witness for C2: three iterations with durations 100, 200, 300 average to
duration 200. -/
theorem C2_averageResults_mean_fields_witness :
    ∃ m, averageResults [res100, res200, res300] = .ok m ∧ m.duration = 200 := by
  obtain ⟨m, hm, hd, -, -, -, -, -⟩ :=
    C2_averageResults_mean_fields [res100, res200, res300] (by simp)
  refine ⟨m, hm, ?_⟩
  rw [hd]
  norm_num [res100, res200, res300, mkRes, mkMetrics, jsRound]

/-- C3: `generateComparison` computes `speedup` as the playwright average
duration divided by the cheerio average duration (no divide-by-zero guard:
the raw field quotient is used), `memoryDifference` as cheerio minus
playwright average memory, and `pagesDifference` as cheerio minus playwright
average pages processed. -/
theorem C3_generateComparison_formulas (p c : List BenchmarkResult)
    (hp : p ≠ []) (hc : c ≠ []) :
    ∃ comp pAvg cAvg,
      averageResults p = .ok pAvg ∧
      averageResults c = .ok cAvg ∧
      generateComparison p c = .ok comp ∧
      comp.speedup = (pAvg.duration : ℚ) / (cAvg.duration : ℚ) ∧
      comp.memoryDifference = cAvg.memoryUsed.getD 0 - pAvg.memoryUsed.getD 0 ∧
      comp.pagesDifference = cAvg.pagesProcessed - pAvg.pagesProcessed :=
  ⟨_, meanMetrics p, meanMetrics c, averageResults_eq_ok p hp,
    averageResults_eq_ok c hc, generateComparison_eq p c hp hc, rfl, rfl, rfl⟩

/-- Witness for C3: the §8 scenario (playwright 3000 ms / 40 MB / 5 pages,
cheerio 1200 ms / 10 MB / 5 pages) yields speedup 2.5, memory difference
-30, pages difference 0. -/
theorem C3_generateComparison_formulas_witness :
    ∃ comp, generateComparison [pwScenario] [chScenario] = .ok comp ∧
      comp.speedup = 5 / 2 ∧ comp.memoryDifference = -30 ∧
      comp.pagesDifference = 0 := by
  obtain ⟨comp, pAvg, cAvg, hpa, hca, hcomp, hs, hm, hpg⟩ :=
    C3_generateComparison_formulas [pwScenario] [chScenario] (by simp) (by simp)
  have hpa2 := hpa.symm.trans (averageResults_eq_ok [pwScenario] (by simp))
  have hca2 := hca.symm.trans (averageResults_eq_ok [chScenario] (by simp))
  injection hpa2 with hpa3
  injection hca2 with hca3
  subst hpa3
  subst hca3
  have h1 : meanMetrics [pwScenario] = pwScenario.metrics :=
    meanMetrics_singleton _ 4000 (by norm_num [pwScenario, mkRes, mkMetrics])
  have h2 : meanMetrics [chScenario] = chScenario.metrics :=
    meanMetrics_singleton _ 1000 (by norm_num [chScenario, mkRes, mkMetrics])
  rw [h1, h2] at hs hm hpg
  refine ⟨comp, hcomp, ?_, ?_, ?_⟩
  · rw [hs]
    norm_num [pwScenario, chScenario, mkRes, mkMetrics]
  · rw [hm]
    norm_num [pwScenario, chScenario, mkRes, mkMetrics]
  · rw [hpg]
    norm_num [pwScenario, chScenario, mkRes, mkMetrics]

/-- C4: `averageResults` on the empty result list throws (returns the error
value) instead of producing default metrics. -/
theorem C4_averageResults_empty_throws :
    averageResults [] = .error "Cannot average empty results" := rfl

/-- C5 counterexample: a singleton whose memory delta 0.005 MB is not a
2-decimal multiple is not returned unchanged — the averaged metrics carry
memoryUsed 0.01 (the 2-decimal rounding of 0.005), so `averageResults [r]`
differs from `r`'s own metrics. -/
theorem C5_counterexample :
    badR.metrics.memoryUsed = some (1 / 200) ∧
    averageResults [badR] = .ok { badR.metrics with memoryUsed := some (1 / 100) } ∧
    averageResults [badR] ≠ .ok badR.metrics := by
  have hmean : meanMetrics [badR] = { badR.metrics with memoryUsed := some (1 / 100) } := by
    unfold meanMetrics badR mkRes mkMetrics
    ext1 <;> norm_num [jsRound, getLastI_singleton]
  have h1 : averageResults [badR] = .ok { badR.metrics with memoryUsed := some (1 / 100) } := by
    rw [averageResults_eq_ok [badR] (by simp), hmean]
  refine ⟨rfl, h1, ?_⟩
  intro h2
  have h3 := h2.symm.trans h1
  injection h3 with h4
  have h5 := congrArg BenchmarkMetrics.memoryUsed h4
  simp only [badR, mkRes, mkMetrics, Option.some.injEq] at h5
  norm_num at h5

/-- C5 (amended): for a singleton input whose memoryUsed is present and is
an integer multiple of 0.01 (as every runner-produced metric is),
`averageResults` returns that result's metrics unchanged. -/
theorem C5_averageResults_singleton_identity (r : BenchmarkResult) (k : Int)
    (h : r.metrics.memoryUsed = some ((k : ℚ) / 100)) :
    averageResults [r] = .ok r.metrics := by
  rw [averageResults_eq_ok [r] (by simp), meanMetrics_singleton r k h]

/-- Witness for C5 (amended): a singleton with memoryUsed 12.34 MB is
returned unchanged. -/
theorem C5_averageResults_singleton_identity_witness :
    averageResults [idR] = .ok idR.metrics :=
  C5_averageResults_singleton_identity idR 1234
    (by norm_num [idR, mkRes, mkMetrics])

/-- C6: the errors field of the averaged metrics is the concatenation of
every input result's error list in input-list order (no deduplication), so
its length is the sum of the input error-list lengths. -/
theorem C6_averageResults_errors_concat (l : List BenchmarkResult) (h : l ≠ []) :
    ∃ m, averageResults l = .ok m ∧
      m.errors = (l.map fun r => r.metrics.errors).flatten ∧
      m.errors.length = (l.map fun r => r.metrics.errors.length).sum := by
  refine ⟨meanMetrics l, averageResults_eq_ok l h, rfl, ?_⟩
  simp [meanMetrics, List.length_flatten, List.map_map, Function.comp_def]

/-- Witness for C6: error lists [a, b] and [b, c] aggregate to
[a, b, b, c] — order kept, duplicate b kept, length 4. -/
theorem C6_averageResults_errors_concat_witness :
    ∃ m, averageResults [eR1, eR2] = .ok m ∧
      m.errors = ["a", "b", "b", "c"] ∧ m.errors.length = 4 := by
  obtain ⟨m, hm, he, -⟩ := C6_averageResults_errors_concat [eR1, eR2] (by simp)
  have he2 : m.errors = ["a", "b", "b", "c"] := by
    rw [he]
    simp [eR1, eR2, mkRes, mkMetrics]
  exact ⟨m, hm, he2, by rw [he2]; rfl⟩

/-- C7: the report's comparison field is present exactly when the input list
contains at least one playwright result and at least one cheerio result;
with only one provider present the field is absent, not an error. -/
theorem C7_generateReport_comparison_iff (results : List BenchmarkResult)
    (config : BenchmarkConfig) (ts : String) :
    ∃ rep, generateReport results config ts = .ok rep ∧
      (rep.comparison.isSome ↔
        ((∃ r ∈ results, r.crawlerType = CrawlerType.playwright) ∧
         (∃ r ∈ results, r.crawlerType = CrawlerType.cheerio))) := by
  unfold generateReport
  by_cases hcond :
      (results.filter fun r => r.crawlerType == CrawlerType.playwright).length > 0 ∧
      (results.filter fun r => r.crawlerType == CrawlerType.cheerio).length > 0
  · have hp : (results.filter fun r => r.crawlerType == CrawlerType.playwright) ≠ [] := by
      have h1 := hcond.1
      intro h0
      rw [h0] at h1
      simp at h1
    have hc : (results.filter fun r => r.crawlerType == CrawlerType.cheerio) ≠ [] := by
      have h1 := hcond.2
      intro h0
      rw [h0] at h1
      simp at h1
    rw [if_pos hcond, generateComparison_eq _ _ hp hc]
    refine ⟨_, rfl, ?_⟩
    simp only [Option.isSome_some, true_iff]
    exact ⟨(filter_crawlerType_pos results CrawlerType.playwright).mp hcond.1,
           (filter_crawlerType_pos results CrawlerType.cheerio).mp hcond.2⟩
  · rw [if_neg hcond]
    refine ⟨_, rfl, ?_⟩
    simp only [Option.isSome_none, Bool.false_eq_true, false_iff]
    intro hrhs
    exact hcond ⟨(filter_crawlerType_pos results CrawlerType.playwright).mpr hrhs.1,
                 (filter_crawlerType_pos results CrawlerType.cheerio).mpr hrhs.2⟩

/-- Witness for C7: a playwright-only run has no comparison; a run with one
result of each provider has one. -/
theorem C7_generateReport_comparison_iff_witness :
    (∃ rep, generateReport [pA0] cfg0 "ts" = .ok rep ∧ rep.comparison = none) ∧
    (∃ rep, generateReport [pA0, cB0] cfg0 "ts" = .ok rep ∧ rep.comparison.isSome) := by
  constructor
  · obtain ⟨rep, hrep, hiff⟩ := C7_generateReport_comparison_iff [pA0] cfg0 "ts"
    refine ⟨rep, hrep, ?_⟩
    have hno : ¬ rep.comparison.isSome = true := by
      rw [hiff]
      rintro ⟨-, r, hr, hct⟩
      rw [List.mem_singleton] at hr
      subst hr
      simp [pA0, mkRes] at hct
    rwa [Option.not_isSome_iff_eq_none] at hno
  · obtain ⟨rep, hrep, hiff⟩ := C7_generateReport_comparison_iff [pA0, cB0] cfg0 "ts"
    refine ⟨rep, hrep, ?_⟩
    rw [hiff]
    exact ⟨⟨pA0, by simp, rfl⟩, ⟨cB0, by simp, rfl⟩⟩

/-- C8: with both providers selected and n iterations, the orchestrator's
result list is provider-major (playwright before cheerio) and
iteration-minor (indices 0..n-1 ascending). -/
theorem C8_runBenchmarks_order (config : BenchmarkConfig)
    (env : CrawlerType → Nat → IterEnv) (n : Nat)
    (h : config.iterations = some n) :
    (runBenchmarks CrawlerChoice.both config env).map
        (fun r => (r.crawlerType, r.iteration)) =
      ((List.range n).map fun i => (CrawlerType.playwright, i)) ++
      ((List.range n).map fun i => (CrawlerType.cheerio, i)) := by
  unfold runBenchmarks crawlersToTest
  rw [h]
  simp only [Option.getD_some, List.flatMap_cons, List.flatMap_nil,
    List.append_nil, List.map_append, List.map_map]
  congr 1 <;> apply List.map_congr_left <;> intro i _ <;>
    simp [Function.comp_def, runBenchmark_crawlerType_eq, runBenchmark_iteration_eq]

/-- Witness for C8: both providers, 2 iterations each, in the exact order
[playwright-0, playwright-1, cheerio-0, cheerio-1]. -/
theorem C8_runBenchmarks_order_witness :
    (runBenchmarks CrawlerChoice.both cfg2 (fun _ _ => envOk)).map
        (fun r => (r.crawlerType, r.iteration)) =
      [(CrawlerType.playwright, 0), (CrawlerType.playwright, 1),
       (CrawlerType.cheerio, 0), (CrawlerType.cheerio, 1)] := by
  rw [C8_runBenchmarks_order cfg2 (fun _ _ => envOk) 2 rfl]
  rfl

/-- C9: on both the success and the failure path, `runBenchmark` reports
`memoryUsed = max 0 (peak - baseline)`, which is never negative even when
every sample fell below the start-of-iteration baseline. -/
theorem C9_runBenchmark_memory_delta (ct : CrawlerType)
    (config : BenchmarkConfig) (i : Nat) (env : IterEnv) :
    (runBenchmark ct config i env).metrics.memoryUsed
        = some (max 0 (peakMemory env - env.startMemory)) ∧
    0 ≤ ((runBenchmark ct config i env).metrics.memoryUsed).getD 0 := by
  unfold runBenchmark
  cases env.outcome <;> simp [le_max_iff]

/-- C10: the per-provider results embedded in a comparison copy every
non-metrics field (crawlerType, config, page records, iteration index) from
the first result of that provider's input list, replacing only the metrics
field with the averaged metrics. -/
theorem C10_generateComparison_frame (p c : List BenchmarkResult)
    (hp : p ≠ []) (hc : c ≠ []) :
    ∃ comp, generateComparison p c = .ok comp ∧
      averageResults p = .ok (meanMetrics p) ∧
      averageResults c = .ok (meanMetrics c) ∧
      comp.playwright = { p.headI with metrics := meanMetrics p } ∧
      comp.cheerio = { c.headI with metrics := meanMetrics c } ∧
      comp.playwright.crawlerType = p.headI.crawlerType ∧
      comp.playwright.config = p.headI.config ∧
      comp.playwright.results = p.headI.results ∧
      comp.playwright.iteration = p.headI.iteration ∧
      comp.cheerio.crawlerType = c.headI.crawlerType ∧
      comp.cheerio.config = c.headI.config ∧
      comp.cheerio.results = c.headI.results ∧
      comp.cheerio.iteration = c.headI.iteration :=
  ⟨_, generateComparison_eq p c hp hc, averageResults_eq_ok p hp,
    averageResults_eq_ok c hc, rfl, rfl, rfl, rfl, rfl, rfl, rfl, rfl, rfl, rfl⟩

/-- Witness for C10: with two playwright iterations carrying different page
records, the comparison embeds iteration 0's page list, not a merge. -/
theorem C10_generateComparison_frame_witness :
    ∃ comp, generateComparison [pA0, pA1] [cB0] = .ok comp ∧
      comp.playwright.results = pA0.results ∧
      comp.playwright.iteration = 0 ∧
      comp.cheerio.results = cB0.results := by
  obtain ⟨comp, hcomp, -, -, -, -, -, -, hres, hit, -, -, hcres, -⟩ :=
    C10_generateComparison_frame [pA0, pA1] [cB0] (by simp) (by simp)
  exact ⟨comp, hcomp, by rw [hres]; rfl, by rw [hit]; rfl, by rw [hcres]; rfl⟩
